import Mathlib

/-!
# Verification of the DefinitelyTyped declaration fragments

This development embeds the declaration surface of the repository's two
source files:

* `src/unnamed/part_000`: the Google-Ads-Scripts `AccountSnippet`
  iterator/selector capability composition, and the `@nginstack` entity
  smoke test (`$ExpectType` assertions);
* `src/types/fixed-data-table-2/index.d.ts`: the props interfaces and
  component classes of the fixed-data-table-2 data grid.

TypeScript interfaces are embedded as lists of named, typed, possibly
optional fields; a consumer's value is embedded as a record assigning a
static type to each supplied member.  Structural conformance of a record
to an interface follows the spec's "compatibility is defined purely as
structural agreement between a consumer's usage and these declarations".
-/

namespace DT

mutual

/-- The static types occurring in the embedded declarations.  `named`
covers class/interface references such as `Entity` or
`React.ReactElement`; `fn` is a function signature with its parameter
list and return type; `union` is a binary type union; `undef` is the
`undefined` type; `lit` is a string-literal type such as the
declarations' alignment and overflow literals. -/
inductive Ty where
  | num
  | str
  | bool
  | void
  | any
  | undef
  | named (n : String)
  | lit (s : String)
  | fn (params : TyList) (ret : Ty)
  | union (a b : Ty)
  deriving DecidableEq, Repr

/-- A parameter-type list of a function signature (kept as its own
inductive so that equality of types stays decidable). -/
inductive TyList where
  | nil
  | cons (head : Ty) (tail : TyList)
  deriving DecidableEq, Repr

end

/-- A declared interface member: its name, whether it is optional
(marked `?` in the declaration), and its declared type (with the
DefinitelyTyped-style trailing `| undefined` of optional members folded
into the `optional` flag). -/
structure Field where
  name : String
  optional : Bool
  ty : Ty
  deriving DecidableEq, Repr

/-- A consumer-supplied object, as seen by the checker: each supplied
member name together with the static type of the supplied value. -/
abbrev Rec := List (String × Ty)

/-- The type a record supplies for a member name, if any. -/
def lookupField (r : Rec) (n : String) : Option Ty :=
  (List.find? (fun p => p.1 == n) r).map (fun p => p.2)

/-- Modelled from the spec: the repository contains no checker, so
assignability follows the spec's "compatibility is defined purely as
structural agreement between a consumer's usage and these declarations":
a supplied type agrees with a declared type when they are equal, when
either is `any`, or when the supplied type is a branch of a declared
union. -/
def assignable (s t : Ty) : Bool :=
  s == t || s == Ty.any || t == Ty.any ||
    (match t with
     | Ty.union a b => s == a || s == b
     | _ => false)

/-- One declared field checks against a record: an absent member is fine
iff the field is optional; a supplied member must be assignable to the
declared type, or be `undefined` for an optional field. -/
def fieldOk (r : Rec) (f : Field) : Bool :=
  match lookupField r f.name with
  | none => f.optional
  | some t => assignable t f.ty || (f.optional && t == Ty.undef)

/-- Structural conformance of a record to an interface given as its full
member list: every declared field checks.  Members the record supplies
beyond the declaration are permitted, as in structural typing. -/
def satisfiesFields (r : Rec) (fs : List Field) : Bool :=
  fs.all (fun f => fieldOk r f)

/-- Every supplied member of the record is type-correct for every
declared field bearing its name (supplying a correctly typed value, in
the spec's sense). -/
def suppliedOk (fs : List Field) (r : Rec) : Bool :=
  r.all fun p => fs.all fun f => f.name != p.1 ||
    (assignable p.2 f.ty || (f.optional && p.2 == Ty.undef))

/-- The record supplies every non-optional declared field. -/
def requiredSupplied (fs : List Field) (r : Rec) : Bool :=
  fs.all fun f => f.optional || (lookupField r f.name).isSome

/-- The names of the non-optional fields of an interface. -/
def requiredNames (fs : List Field) : List String :=
  (fs.filter (fun f => !f.optional)).map Field.name

/-- Whether a type is a function signature (a callback, when it is the
type of a props field). -/
def isFn : Ty → Bool
  | Ty.fn _ _ => true
  | _ => false

/-- An interface declaration as it appears in a source file: its name,
the interfaces it extends (with their type arguments, rendered as they
are written), and the members declared in its own body. -/
structure IfaceDecl where
  name : String
  extendsList : List String
  ownMembers : List Field
  deriving DecidableEq, Repr

end DT

namespace GoogleAdsScripts

namespace AdsApp

open DT

/-- `interface AccountSnippet extends Snippet {}` from the scripting
fragment. -/
def AccountSnippet : IfaceDecl :=
  ⟨"AccountSnippet", ["Snippet"], []⟩

/-- `interface AccountSnippetIterator extends Base.Iterator<AccountSnippet> {}`. -/
def AccountSnippetIterator : IfaceDecl :=
  ⟨"AccountSnippetIterator", ["Base.Iterator<AccountSnippet>"], []⟩

/-- `interface AccountSnippetSelector extends Base.Selector<AccountSnippetIterator>,
Base.SelectorForDateRange, Base.SelectorOrderBy, Base.SelectorWithCondition,
Base.SelectorWithLimit {}`. -/
def AccountSnippetSelector : IfaceDecl :=
  ⟨"AccountSnippetSelector",
   ["Base.Selector<AccountSnippetIterator>", "Base.SelectorForDateRange",
    "Base.SelectorOrderBy", "Base.SelectorWithCondition", "Base.SelectorWithLimit"],
   []⟩

namespace Base

/-- Modelled from the spec: the generic `Base.Iterator` capability
interface is not under src/ (only the fragment extending it is); per the
spec an iterator "produces a next element or signals exhaustion", so it
requires a `hasNext` test and a `next` producer of the element type. -/
def Iterator (elem : Ty) : List Field :=
  [⟨"hasNext", false, Ty.fn TyList.nil Ty.bool⟩,
   ⟨"next", false, Ty.fn TyList.nil elem⟩]

/-- Modelled from the spec: the generic `Base.Selector` capability
(pagination/iteration) requires obtaining the iterator over the selected
entities. -/
def Selector (iter : Ty) : List Field :=
  [⟨"get", false, Ty.fn TyList.nil iter⟩]

/-- Modelled from the spec: the date-range filter capability requires a
date-range refinement returning the selector itself. -/
def SelectorForDateRange (self : Ty) : List Field :=
  [⟨"forDateRange", false, Ty.fn (TyList.cons Ty.str TyList.nil) self⟩]

/-- Modelled from the spec: the ordering capability requires an ordering
refinement returning the selector itself. -/
def SelectorOrderBy (self : Ty) : List Field :=
  [⟨"orderBy", false, Ty.fn (TyList.cons Ty.str TyList.nil) self⟩]

/-- Modelled from the spec: the condition filter capability requires a
condition refinement returning the selector itself. -/
def SelectorWithCondition (self : Ty) : List Field :=
  [⟨"withCondition", false, Ty.fn (TyList.cons Ty.str TyList.nil) self⟩]

/-- Modelled from the spec: the result-limiting capability requires a
limit refinement returning the selector itself. -/
def SelectorWithLimit (self : Ty) : List Field :=
  [⟨"withLimit", false, Ty.fn (TyList.cons Ty.num TyList.nil) self⟩]

end Base

/-- The selector type itself, as the return type of the chained
refinement members. -/
def selectorSelf : Ty := Ty.named "AccountSnippetSelector"

/-- The full member surface of `AccountSnippetIterator`: its own (empty)
body plus the members inherited from `Base.Iterator<AccountSnippet>`. -/
def accountSnippetIteratorMembers : List Field :=
  AccountSnippetIterator.ownMembers ++ Base.Iterator (Ty.named "AccountSnippet")

/-- The full member surface of `AccountSnippetSelector`: its own (empty)
body plus the members inherited from each of the five composed
capability interfaces. -/
def accountSnippetSelectorMembers : List Field :=
  AccountSnippetSelector.ownMembers ++
    (Base.Selector (Ty.named "AccountSnippetIterator") ++
      (Base.SelectorForDateRange selectorSelf ++
        (Base.SelectorOrderBy selectorSelf ++
          (Base.SelectorWithCondition selectorSelf ++
            Base.SelectorWithLimit selectorSelf))))

end AdsApp

end GoogleAdsScripts

namespace NginEntity

open DT

/-- The kind of a class member: data property or method. -/
inductive MemberKind where
  | prop
  | method
  deriving DecidableEq, Repr

/-- A class member: name, kind, and its declared type (the property type
for a property; the return type for a method). -/
structure Member where
  name : String
  kind : MemberKind
  ty : Ty
  deriving DecidableEq, Repr

/-- Modelled from the spec: the `Entity` class declaration of
`@nginstack/orm/lib/Entity` is not under src/ (only the smoke test
exercising it is).  The spec describes the declaration through the
smoke test's expectations: each property and each method with its
declared (return) type. -/
def entityMembers : List Member :=
  [⟨"key", MemberKind.prop, Ty.num⟩,
   ⟨"classKey", MemberKind.prop, Ty.num⟩,
   ⟨"autoPersist", MemberKind.prop, Ty.bool⟩,
   ⟨"postPending", MemberKind.prop, Ty.bool⟩,
   ⟨"set", MemberKind.method, Ty.void⟩,
   ⟨"get", MemberKind.method, Ty.any⟩,
   ⟨"assign", MemberKind.method, Ty.void⟩,
   ⟨"edit", MemberKind.method, Ty.void⟩,
   ⟨"cancel", MemberKind.method, Ty.void⟩,
   ⟨"post", MemberKind.method, Ty.void⟩,
   ⟨"delete", MemberKind.method, Ty.void⟩,
   ⟨"bindDataSet", MemberKind.method, Ty.void⟩,
   ⟨"clone", MemberKind.method, Ty.named "Entity"⟩,
   ⟨"persist", MemberKind.method, Ty.num⟩,
   ⟨"toJSONString", MemberKind.method, Ty.str⟩,
   ⟨"toJSONSchema", MemberKind.method, Ty.any⟩]

/-- An expression form occurring in the smoke test: the single `new
Entity(1, new DataSet())` instantiation, a property access or a method
call on the `entity` binding, or the call of the locally declared
`getVersion`. -/
inductive TestExpr where
  | newEntity
  | entityProp (m : String)
  | entityCall (m : String)
  | getVersionCall
  deriving DecidableEq, Repr

/-- One line of the smoke test: an expression together with the type the
adjacent `$ExpectType` comment annotates for it. -/
structure TestStmt where
  expr : TestExpr
  expectType : Ty
  deriving DecidableEq, Repr

/-- The entity smoke test of `src/unnamed/part_000`, line by line, in
source order. -/
def entitySmokeTest : List TestStmt :=
  [⟨TestExpr.newEntity, Ty.named "Entity"⟩,
   ⟨TestExpr.entityProp "key", Ty.num⟩,
   ⟨TestExpr.entityProp "classKey", Ty.num⟩,
   ⟨TestExpr.entityProp "autoPersist", Ty.bool⟩,
   ⟨TestExpr.entityProp "postPending", Ty.bool⟩,
   ⟨TestExpr.entityCall "set", Ty.void⟩,
   ⟨TestExpr.entityCall "get", Ty.any⟩,
   ⟨TestExpr.entityCall "assign", Ty.void⟩,
   ⟨TestExpr.entityCall "edit", Ty.void⟩,
   ⟨TestExpr.entityCall "cancel", Ty.void⟩,
   ⟨TestExpr.entityCall "post", Ty.void⟩,
   ⟨TestExpr.entityCall "delete", Ty.void⟩,
   ⟨TestExpr.entityCall "bindDataSet", Ty.void⟩,
   ⟨TestExpr.entityCall "clone", Ty.named "Entity"⟩,
   ⟨TestExpr.entityCall "persist", Ty.num⟩,
   ⟨TestExpr.entityCall "toJSONString", Ty.str⟩,
   ⟨TestExpr.entityCall "toJSONSchema", Ty.any⟩,
   ⟨TestExpr.getVersionCall, Ty.str⟩]

/-- Look a member up in the `Entity` declaration. -/
def findMember (n : String) : Option Member :=
  entityMembers.find? (fun m => m.name == n)

/-- The statically inferred type of a smoke-test expression:
instantiation yields the class type, property access yields the declared
property type, a method call yields the declared return type, and
`getVersion()` yields the locally declared `string` return type. -/
def inferType : TestExpr → Option Ty
  | TestExpr.newEntity => some (Ty.named "Entity")
  | TestExpr.entityProp m =>
      match findMember m with
      | some mem => if mem.kind == MemberKind.prop then some mem.ty else none
      | none => none
  | TestExpr.entityCall m =>
      match findMember m with
      | some mem => if mem.kind == MemberKind.method then some mem.ty else none
      | none => none
  | TestExpr.getVersionCall => some Ty.str

/-- The `Entity` methods the smoke test exercises, as named by the
claimed method list. -/
def exercisedMethods : List String :=
  ["set", "get", "assign", "edit", "cancel", "post", "delete",
   "bindDataSet", "clone", "persist", "toJSONString", "toJSONSchema"]

end NginEntity

namespace FixedDataTable

open DT

/-- `type TableRowEventHandler = (event: React.SyntheticEvent<Table>,
rowIndex: number) => void`. -/
def TableRowEventHandler : Ty :=
  Ty.fn (TyList.cons (Ty.named "React.SyntheticEvent<Table>")
    (TyList.cons Ty.num TyList.nil)) Ty.void

/-- `type AttributesGetterReturn`, an intersection of HTML attributes
and data attributes of an external library, kept opaque. -/
def AttributesGetterReturn : Ty := Ty.named "AttributesGetterReturn"

/-- `type ElementOrFunc<P> = string | React.ReactElement | ((props: P)
=> string | React.ReactElement)`, at the props type named `p`. -/
def ElementOrFunc (p : String) : Ty :=
  Ty.union Ty.str
    (Ty.union (Ty.named "React.ReactElement")
      (Ty.fn (TyList.cons (Ty.named p) TyList.nil)
        (Ty.union Ty.str (Ty.named "React.ReactElement"))))

/-- `interface RowProps`. -/
def RowProps : List Field :=
  [⟨"rowIndex", false, Ty.num⟩,
   ⟨"height", false, Ty.num⟩,
   ⟨"width", false, Ty.num⟩]

/-- `interface ColumnReorderEndEvent`: the argument type of
`TableProps.onColumnReorderEndCallback`. -/
def ColumnReorderEndEvent : List Field :=
  [⟨"columnBefore", true, Ty.str⟩,
   ⟨"columnAfter", true, Ty.str⟩,
   ⟨"reorderColumn", false, Ty.str⟩]

/-- `interface TableProps`, its own members in source order.  The parent
`React.ClassAttributes<Table>` belongs to an external library and
contributes only optional members, so it adds nothing to the required
surface embedded here. -/
def TableProps : List Field :=
  [⟨"children", true, Ty.named "React.ReactNode"⟩,
   ⟨"width", false, Ty.num⟩,
   ⟨"height", true, Ty.num⟩,
   ⟨"className", true, Ty.str⟩,
   ⟨"maxHeight", true, Ty.num⟩,
   ⟨"ownerHeight", true, Ty.num⟩,
   ⟨"overflowX", true, Ty.union (Ty.lit "hidden") (Ty.lit "auto")⟩,
   ⟨"overflowY", true, Ty.union (Ty.lit "hidden") (Ty.lit "auto")⟩,
   ⟨"touchScrollEnabled", true, Ty.bool⟩,
   ⟨"keyboardScrollEnabled", true, Ty.bool⟩,
   ⟨"keyboardPageEnabled", true, Ty.bool⟩,
   ⟨"showScrollbarX", true, Ty.bool⟩,
   ⟨"showScrollbarY", true, Ty.bool⟩,
   ⟨"onHorizontalScroll", true, Ty.fn (TyList.cons Ty.num TyList.nil) Ty.bool⟩,
   ⟨"onVerticalScroll", true, Ty.fn (TyList.cons Ty.num TyList.nil) Ty.bool⟩,
   ⟨"rowsCount", false, Ty.num⟩,
   ⟨"rowHeight", false, Ty.num⟩,
   ⟨"rowHeightGetter", true, Ty.fn (TyList.cons Ty.num TyList.nil) Ty.num⟩,
   ⟨"subRowHeight", true, Ty.num⟩,
   ⟨"subRowHeightGetter", true, Ty.fn (TyList.cons Ty.num TyList.nil) Ty.num⟩,
   ⟨"rowExpanded", true, ElementOrFunc "RowProps"⟩,
   ⟨"rowAttributesGetter", true,
     Ty.fn (TyList.cons Ty.num TyList.nil) AttributesGetterReturn⟩,
   ⟨"rowClassNameGetter", true, Ty.fn (TyList.cons Ty.num TyList.nil) Ty.str⟩,
   ⟨"rowKeyGetter", true, Ty.fn (TyList.cons Ty.num TyList.nil) Ty.str⟩,
   ⟨"gridAttributesGetter", true, Ty.fn TyList.nil AttributesGetterReturn⟩,
   ⟨"groupHeaderHeight", true, Ty.num⟩,
   ⟨"headerHeight", false, Ty.num⟩,
   ⟨"cellGroupWrapperHeight", true, Ty.num⟩,
   ⟨"footerHeight", true, Ty.num⟩,
   ⟨"scrollLeft", true, Ty.num⟩,
   ⟨"scrollToColumn", true, Ty.num⟩,
   ⟨"scrollTop", true, Ty.num⟩,
   ⟨"scrollToRow", true, Ty.num⟩,
   ⟨"onScrollStart", true,
     Ty.fn (TyList.cons Ty.num (TyList.cons Ty.num
       (TyList.cons Ty.num (TyList.cons Ty.num TyList.nil)))) Ty.void⟩,
   ⟨"onScrollEnd", true,
     Ty.fn (TyList.cons Ty.num (TyList.cons Ty.num
       (TyList.cons Ty.num (TyList.cons Ty.num TyList.nil)))) Ty.void⟩,
   ⟨"stopScrollPropagation", true, Ty.bool⟩,
   ⟨"onContentHeightChange", true, Ty.fn (TyList.cons Ty.num TyList.nil) Ty.void⟩,
   ⟨"onRowClick", true, TableRowEventHandler⟩,
   ⟨"onRowContextMenu", true, TableRowEventHandler⟩,
   ⟨"onRowDoubleClick", true, TableRowEventHandler⟩,
   ⟨"onRowMouseDown", true, TableRowEventHandler⟩,
   ⟨"onRowMouseUp", true, TableRowEventHandler⟩,
   ⟨"onRowMouseEnter", true, TableRowEventHandler⟩,
   ⟨"onRowMouseLeave", true, TableRowEventHandler⟩,
   ⟨"onRowTouchStart", true, TableRowEventHandler⟩,
   ⟨"onRowTouchEnd", true, TableRowEventHandler⟩,
   ⟨"onRowTouchMove", true, TableRowEventHandler⟩,
   ⟨"onColumnResizeEndCallback", true,
     Ty.fn (TyList.cons Ty.num (TyList.cons Ty.str TyList.nil)) Ty.void⟩,
   ⟨"onColumnReorderEndCallback", true,
     Ty.fn (TyList.cons (Ty.named "ColumnReorderEndEvent") TyList.nil) Ty.void⟩,
   ⟨"isColumnResizing", true, Ty.bool⟩,
   ⟨"isColumnReordering", true, Ty.bool⟩,
   ⟨"bufferRowCount", true, Ty.num⟩]

/-- `interface ColumnHeaderProps`. -/
def ColumnHeaderProps : List Field :=
  [⟨"columnKey", true, Ty.str⟩,
   ⟨"height", false, Ty.num⟩,
   ⟨"width", false, Ty.num⟩]

/-- `interface ColumnCellProps extends ColumnHeaderProps`: the inherited
members plus the row index of the cell. -/
def ColumnCellProps : List Field :=
  ColumnHeaderProps ++ [⟨"rowIndex", false, Ty.num⟩]

/-- `interface ColumnProps`, its own members in source order.  The
parent `React.ClassAttributes<Column>` is external and all-optional. -/
def ColumnProps : List Field :=
  [⟨"align", true,
     Ty.union (Ty.lit "left") (Ty.union (Ty.lit "center") (Ty.lit "right"))⟩,
   ⟨"fixed", true, Ty.bool⟩,
   ⟨"fixedRight", true, Ty.bool⟩,
   ⟨"header", true, ElementOrFunc "ColumnHeaderProps"⟩,
   ⟨"cell", true, ElementOrFunc "ColumnCellProps"⟩,
   ⟨"footer", true, ElementOrFunc "ColumnHeaderProps"⟩,
   ⟨"columnKey", true, Ty.union Ty.str Ty.num⟩,
   ⟨"width", false, Ty.num⟩,
   ⟨"minWidth", true, Ty.num⟩,
   ⟨"maxWidth", true, Ty.num⟩,
   ⟨"flexGrow", true, Ty.num⟩,
   ⟨"isResizable", true, Ty.bool⟩,
   ⟨"isReorderable", true, Ty.bool⟩,
   ⟨"allowCellsRecycling", true, Ty.bool⟩,
   ⟨"pureRendering", true, Ty.bool⟩,
   ⟨"cellClassName", true, Ty.str⟩]

/-- `interface ColumnGroupHeaderProps`. -/
def ColumnGroupHeaderProps : List Field :=
  [⟨"height", false, Ty.num⟩,
   ⟨"width", false, Ty.num⟩]

/-- `interface ColumnGroupProps`, its own members.  The parent
`React.ClassAttributes<ColumnGroup>` is external and all-optional. -/
def ColumnGroupProps : List Field :=
  [⟨"children", true, Ty.named "React.ReactNode"⟩,
   ⟨"align", true,
     Ty.union (Ty.lit "left") (Ty.union (Ty.lit "center") (Ty.lit "right"))⟩,
   ⟨"fixed", true, Ty.bool⟩,
   ⟨"header", true, ElementOrFunc "ColumnGroupHeaderProps"⟩,
   ⟨"cellClassName", true, Ty.str⟩]

/-- `interface CellProps`, its own members.  The parent
`React.HTMLAttributes<Cell>` is external and all-optional. -/
def CellProps : List Field :=
  [⟨"height", true, Ty.num⟩,
   ⟨"width", true, Ty.num⟩,
   ⟨"columnKey", true, Ty.union Ty.str Ty.num⟩,
   ⟨"rowIndex", true, Ty.num⟩]

namespace Plugins

/-- The anonymous event shape of `ReorderCellProps.onColumnReorderEnd`:
`{columnBefore: string; columnAfter: string; reorderColumn: string}`,
with every field required. -/
def ReorderCellEndEvent : List Field :=
  [⟨"columnBefore", false, Ty.str⟩,
   ⟨"columnAfter", false, Ty.str⟩,
   ⟨"reorderColumn", false, Ty.str⟩]

/-- `interface ResizeCellProps`, its own members in source order.  The
parent `React.HTMLAttributes<ResizeCell>` is external and
all-optional. -/
def ResizeCellProps : List Field :=
  [⟨"columnKey", true, Ty.union Ty.str Ty.num⟩,
   ⟨"minWidth", true, Ty.num⟩,
   ⟨"maxWidth", true, Ty.num⟩,
   ⟨"width", true, Ty.num⟩,
   ⟨"touchEnabled", true, Ty.bool⟩,
   ⟨"isRTL", true, Ty.bool⟩,
   ⟨"onColumnResizeEnd", false,
     Ty.fn (TyList.cons Ty.num (TyList.cons Ty.str TyList.nil)) Ty.void⟩,
   ⟨"height", true, Ty.num⟩]

/-- `interface ReorderCellProps`, its own members in source order.  The
parent `React.HTMLAttributes<ReorderCell>` is external and
all-optional. -/
def ReorderCellProps : List Field :=
  [⟨"height", true, Ty.num⟩,
   ⟨"width", true, Ty.num⟩,
   ⟨"columnKey", true, Ty.union Ty.str Ty.num⟩,
   ⟨"rowIndex", true, Ty.num⟩,
   ⟨"left", true, Ty.num⟩,
   ⟨"touchEnabled", true, Ty.bool⟩,
   ⟨"minWidth", true, Ty.num⟩,
   ⟨"maxWidth", true, Ty.num⟩,
   ⟨"onColumnReorderStart", true,
     Ty.fn (TyList.cons Ty.str TyList.nil) Ty.void⟩,
   ⟨"onColumnReorderEnd", false,
     Ty.fn (TyList.cons (Ty.named "ReorderCellEndEvent") TyList.nil) Ty.void⟩]

end Plugins

/-- A component-class declaration of the file: its (qualified) name, the
class it extends, and the props type argument it is instantiated at. -/
structure ClassDecl where
  name : String
  superClass : String
  propsArg : String
  deriving DecidableEq, Repr

/-- The component classes declared by the grid declaration file, in
source order. -/
def classDecls : List ClassDecl :=
  [⟨"Table", "React.Component", "TableProps"⟩,
   ⟨"Column", "React.Component", "ColumnProps"⟩,
   ⟨"ColumnGroup", "React.Component", "ColumnGroupProps"⟩,
   ⟨"Cell", "React.Component", "CellProps"⟩,
   ⟨"Plugins.ResizeCell", "React.Component", "ResizeCellProps"⟩,
   ⟨"Plugins.ReorderCell", "React.Component", "ReorderCellProps"⟩]

/-- A props record supplying exactly the four required table fields,
each with a numeric value, and neither `height` nor `maxHeight`. -/
def minimalTableProps : DT.Rec :=
  [("width", DT.Ty.num), ("rowsCount", DT.Ty.num),
   ("rowHeight", DT.Ty.num), ("headerHeight", DT.Ty.num)]

/-- A reorder event whose `columnBefore` is `undefined` and whose other
members are strings. -/
def reorderEventNoBefore : DT.Rec :=
  [("columnBefore", DT.Ty.undef), ("columnAfter", DT.Ty.str),
   ("reorderColumn", DT.Ty.str)]

end FixedDataTable

namespace DT

/-- A record fails an interface as soon as one declared field fails. -/
theorem satisfiesFields_eq_false_of_mem {r : Rec} {fs : List Field} {f : Field}
    (hf : f ∈ fs) (hfo : fieldOk r f = false) :
    satisfiesFields r fs = false := by
  rw [satisfiesFields, ← Bool.not_eq_true, List.all_eq_true]
  intro h
  have := h f hf
  rw [hfo] at this
  exact Bool.false_ne_true this

/-- A required field that the record does not supply fails. -/
theorem fieldOk_eq_false_of_missing {r : Rec} {f : Field}
    (hopt : f.optional = false) (hnone : lookupField r f.name = none) :
    fieldOk r f = false := by
  rw [fieldOk, hnone, hopt]

/-- A supplied field whose type neither agrees with the declared type
nor is `undefined` on an optional field fails. -/
theorem fieldOk_eq_false_of_wrong {r : Rec} {f : Field} {t : Ty}
    (hsome : lookupField r f.name = some t)
    (hassign : assignable t f.ty = false)
    (hundef : (f.optional && t == Ty.undef) = false) :
    fieldOk r f = false := by
  rw [fieldOk, hsome]
  show (assignable t f.ty || (f.optional && t == Ty.undef)) = false
  rw [hassign, hundef, Bool.or_self]

/-- Acceptance: a record that supplies every required field and whose
every supplied member is type-correct for the declared fields of its
name conforms to the interface. -/
theorem satisfiesFields_of_supplied {fs : List Field} {r : Rec}
    (h1 : suppliedOk fs r = true) (h2 : requiredSupplied fs r = true) :
    satisfiesFields r fs = true := by
  rw [satisfiesFields, List.all_eq_true]
  intro f hf
  rw [requiredSupplied, List.all_eq_true] at h2
  have h2f := h2 f hf
  rw [suppliedOk, List.all_eq_true] at h1
  cases hl : lookupField r f.name with
  | none =>
      rw [hl] at h2f
      simp only [Option.isSome_none, Bool.or_false] at h2f
      rw [fieldOk, hl]
      exact h2f
  | some t =>
      obtain ⟨p, hpfind, hpt⟩ :
          ∃ p, List.find? (fun q => q.1 == f.name) r = some p ∧ p.2 = t := by
        rw [lookupField] at hl
        cases hfind : List.find? (fun q => q.1 == f.name) r with
        | none => rw [hfind] at hl; exact absurd hl (by simp)
        | some p =>
            refine ⟨p, rfl, ?_⟩
            rw [hfind] at hl
            simpa using hl
      have hpmem : p ∈ r := List.mem_of_find?_eq_some hpfind
      have hpname : p.1 = f.name := by
        have := List.find?_some hpfind
        exact eq_of_beq this
      have h1p := h1 p hpmem
      rw [List.all_eq_true] at h1p
      have hmain := h1p f hf
      rw [hpname, hpt] at hmain
      simp only [bne_self_eq_false, Bool.false_or] at hmain
      rw [fieldOk, hl]
      exact hmain

/-- A wrong supplied type is never assignable: the types differ, neither
is `any`, and for a declared union the supplied type is in no branch. -/
theorem assignable_eq_false {s t : Ty} (h1 : s ≠ t) (h2 : s ≠ Ty.any)
    (h3 : t ≠ Ty.any) (h4 : ∀ a b, t = Ty.union a b → s ≠ a ∧ s ≠ b) :
    assignable s t = false := by
  cases t
  case union a b =>
    obtain ⟨ha, hb⟩ := h4 a b rfl
    simp [assignable, beq_eq_false_iff_ne.mpr h1, beq_eq_false_iff_ne.mpr h2,
      beq_eq_false_iff_ne.mpr h3, beq_eq_false_iff_ne.mpr ha,
      beq_eq_false_iff_ne.mpr hb]
  case any => exact absurd rfl h3
  all_goals
    simp [assignable, beq_eq_false_iff_ne.mpr h1, beq_eq_false_iff_ne.mpr h2,
      beq_eq_false_iff_ne.mpr h3]

end DT

/-- Claim C1: every expression of the entity smoke test has the
statically inferred type annotated in its adjacent `$ExpectType`
comment; in particular `entity.key` is `number`, `entity.post()` is
`void`, and `entity.clone()` is `Entity`. -/
theorem entity_smoke_test_types_match :
    NginEntity.inferType (NginEntity.TestExpr.entityProp "key") = some DT.Ty.num
    ∧ NginEntity.inferType (NginEntity.TestExpr.entityCall "post") = some DT.Ty.void
    ∧ NginEntity.inferType (NginEntity.TestExpr.entityCall "clone")
        = some (DT.Ty.named "Entity")
    ∧ NginEntity.entitySmokeTest.all
        (fun s => NginEntity.inferType s.expr == some s.expectType) = true := by
  refine ⟨rfl, rfl, rfl, by decide⟩

/-- Claim C7: the entity smoke test instantiates exactly one `Entity`,
invokes each exercised method exactly once, and every method invocation
carries a type expectation equal to the method's declared return
type. -/
theorem entity_smoke_test_invocation_counts :
    NginEntity.entitySmokeTest.countP
        (fun s => s.expr == NginEntity.TestExpr.newEntity) = 1
    ∧ NginEntity.exercisedMethods.all (fun m =>
        NginEntity.entitySmokeTest.countP
          (fun s => s.expr == NginEntity.TestExpr.entityCall m) == 1) = true
    ∧ NginEntity.entitySmokeTest.all (fun s =>
        match s.expr with
        | NginEntity.TestExpr.entityCall m =>
            (NginEntity.findMember m).map NginEntity.Member.ty == some s.expectType
        | _ => true) = true := by
  refine ⟨by decide, by decide, by decide⟩

/-- Claim C4: the scripting fragment composes `AccountSnippetIterator`
from the generic iterator over `AccountSnippet` and
`AccountSnippetSelector` from the generic selector over that iterator
plus the date-range, order-by, condition, and limit capabilities, with
no members declared in either interface body; so the full member surface
of each is exactly what the composed capabilities contribute. -/
theorem account_snippet_composition :
    GoogleAdsScripts.AdsApp.AccountSnippetIterator.extendsList
        = ["Base.Iterator<AccountSnippet>"]
    ∧ GoogleAdsScripts.AdsApp.AccountSnippetIterator.ownMembers = []
    ∧ GoogleAdsScripts.AdsApp.AccountSnippetSelector.extendsList
        = ["Base.Selector<AccountSnippetIterator>", "Base.SelectorForDateRange",
           "Base.SelectorOrderBy", "Base.SelectorWithCondition",
           "Base.SelectorWithLimit"]
    ∧ GoogleAdsScripts.AdsApp.AccountSnippetSelector.ownMembers = []
    ∧ GoogleAdsScripts.AdsApp.accountSnippetIteratorMembers
        = GoogleAdsScripts.AdsApp.Base.Iterator (DT.Ty.named "AccountSnippet")
    ∧ GoogleAdsScripts.AdsApp.accountSnippetSelectorMembers
        = GoogleAdsScripts.AdsApp.Base.Selector (DT.Ty.named "AccountSnippetIterator")
          ++ GoogleAdsScripts.AdsApp.Base.SelectorForDateRange
              GoogleAdsScripts.AdsApp.selectorSelf
          ++ GoogleAdsScripts.AdsApp.Base.SelectorOrderBy
              GoogleAdsScripts.AdsApp.selectorSelf
          ++ GoogleAdsScripts.AdsApp.Base.SelectorWithCondition
              GoogleAdsScripts.AdsApp.selectorSelf
          ++ GoogleAdsScripts.AdsApp.Base.SelectorWithLimit
              GoogleAdsScripts.AdsApp.selectorSelf :=
  ⟨rfl, rfl, rfl, rfl, rfl, rfl⟩

/-- Claim C6: the grid declaration file declares exactly six component
classes, each extending `React.Component` instantiated at its own
dedicated props interface. -/
theorem grid_component_classes :
    FixedDataTable.classDecls.length = 6
    ∧ FixedDataTable.classDecls.all
        (fun c => c.superClass == "React.Component") = true
    ∧ FixedDataTable.classDecls.map (fun c => (c.name, c.propsArg))
        = [("Table", "TableProps"), ("Column", "ColumnProps"),
           ("ColumnGroup", "ColumnGroupProps"), ("Cell", "CellProps"),
           ("Plugins.ResizeCell", "ResizeCellProps"),
           ("Plugins.ReorderCell", "ReorderCellProps")] :=
  ⟨rfl, by decide, rfl⟩

/-- Claim C8: `height` and `maxHeight` are optional numeric fields of
`TableProps`, and a props record carrying only the four required fields
with numeric values, and neither `height` nor `maxHeight`, conforms:
the doc-comment constraint that one of the two be specified is not
enforced by the declared types. -/
theorem table_height_constraint_unenforced :
    FixedDataTable.TableProps.find? (fun f => f.name == "height")
        = some ⟨"height", true, DT.Ty.num⟩
    ∧ FixedDataTable.TableProps.find? (fun f => f.name == "maxHeight")
        = some ⟨"maxHeight", true, DT.Ty.num⟩
    ∧ DT.lookupField FixedDataTable.minimalTableProps "height" = none
    ∧ DT.lookupField FixedDataTable.minimalTableProps "maxHeight" = none
    ∧ DT.satisfiesFields FixedDataTable.minimalTableProps
        FixedDataTable.TableProps = true := by
  refine ⟨by decide, by decide, rfl, rfl, by decide⟩

/-- Claim C10: the two column-reorder event shapes disagree:
`ColumnReorderEndEvent` (the argument of
`TableProps.onColumnReorderEndCallback`) declares `columnBefore` and
`columnAfter` optional, the inline event type of
`ReorderCellProps.onColumnReorderEnd` declares them required strings,
and an event with `columnBefore` undefined conforms to the former but
not to the latter. -/
theorem reorder_event_shapes_disagree :
    (FixedDataTable.ColumnReorderEndEvent.find?
        (fun f => f.name == "columnBefore")).map (fun f => (f.optional, f.ty))
        = some (true, DT.Ty.str)
    ∧ (FixedDataTable.ColumnReorderEndEvent.find?
        (fun f => f.name == "columnAfter")).map (fun f => (f.optional, f.ty))
        = some (true, DT.Ty.str)
    ∧ (FixedDataTable.Plugins.ReorderCellEndEvent.find?
        (fun f => f.name == "columnBefore")).map (fun f => (f.optional, f.ty))
        = some (false, DT.Ty.str)
    ∧ (FixedDataTable.Plugins.ReorderCellEndEvent.find?
        (fun f => f.name == "columnAfter")).map (fun f => (f.optional, f.ty))
        = some (false, DT.Ty.str)
    ∧ (FixedDataTable.TableProps.find?
        (fun f => f.name == "onColumnReorderEndCallback")).map DT.Field.ty
        = some (DT.Ty.fn
            (DT.TyList.cons (DT.Ty.named "ColumnReorderEndEvent") DT.TyList.nil)
            DT.Ty.void)
    ∧ (FixedDataTable.Plugins.ReorderCellProps.find?
        (fun f => f.name == "onColumnReorderEnd")).map DT.Field.ty
        = some (DT.Ty.fn
            (DT.TyList.cons (DT.Ty.named "ReorderCellEndEvent") DT.TyList.nil)
            DT.Ty.void)
    ∧ DT.satisfiesFields FixedDataTable.reorderEventNoBefore
        FixedDataTable.ColumnReorderEndEvent = true
    ∧ DT.satisfiesFields FixedDataTable.reorderEventNoBefore
        FixedDataTable.Plugins.ReorderCellEndEvent = false := by
  refine ⟨by decide, by decide, by decide, by decide, by decide, by decide,
    by decide, by decide⟩

/-- Claim C2: a record conforms to the composed
`AccountSnippetSelector` contract iff it simultaneously conforms to
each of the five composed capability member lists, and a record missing
any one (required) member of the composed surface does not conform. -/
theorem account_snippet_selector_conformance (r : DT.Rec) :
    (DT.satisfiesFields r GoogleAdsScripts.AdsApp.accountSnippetSelectorMembers = true ↔
       (DT.satisfiesFields r (GoogleAdsScripts.AdsApp.Base.Selector
           (DT.Ty.named "AccountSnippetIterator")) = true
        ∧ DT.satisfiesFields r (GoogleAdsScripts.AdsApp.Base.SelectorForDateRange
            GoogleAdsScripts.AdsApp.selectorSelf) = true
        ∧ DT.satisfiesFields r (GoogleAdsScripts.AdsApp.Base.SelectorOrderBy
            GoogleAdsScripts.AdsApp.selectorSelf) = true
        ∧ DT.satisfiesFields r (GoogleAdsScripts.AdsApp.Base.SelectorWithCondition
            GoogleAdsScripts.AdsApp.selectorSelf) = true
        ∧ DT.satisfiesFields r (GoogleAdsScripts.AdsApp.Base.SelectorWithLimit
            GoogleAdsScripts.AdsApp.selectorSelf) = true))
    ∧ (∀ f ∈ GoogleAdsScripts.AdsApp.accountSnippetSelectorMembers,
        DT.lookupField r f.name = none →
        DT.satisfiesFields r GoogleAdsScripts.AdsApp.accountSnippetSelectorMembers
          = false) := by
  constructor
  · simp [DT.satisfiesFields, GoogleAdsScripts.AdsApp.accountSnippetSelectorMembers,
      GoogleAdsScripts.AdsApp.AccountSnippetSelector, List.all_append,
      Bool.and_eq_true, and_assoc]
  · intro f hf hnone
    have hopt : f.optional = false := by
      have hall : ∀ g ∈ GoogleAdsScripts.AdsApp.accountSnippetSelectorMembers,
          g.optional = false := by decide
      exact hall f hf
    exact DT.satisfiesFields_eq_false_of_mem hf
      (DT.fieldOk_eq_false_of_missing hopt hnone)

/-- Spot check for C2: the empty record, lacking the `get` member the
selector capability contributes, does not conform. -/
theorem account_snippet_selector_conformance_spot :
    DT.satisfiesFields [] GoogleAdsScripts.AdsApp.accountSnippetSelectorMembers
      = false :=
  (account_snippet_selector_conformance []).2
    ⟨"get", false, DT.Ty.fn DT.TyList.nil (DT.Ty.named "AccountSnippetIterator")⟩
    (by decide) rfl

/-- Claim C3: for the grid props interfaces, a supplied member whose
type does not agree with its declaration is rejected — in particular a
string `width` on `TableProps` or `ColumnProps` — while a record whose
supplied members all agree with the declarations and that carries every
required field is accepted; the required `TableProps` fields are exactly
`width`, `rowsCount`, `rowHeight`, `headerHeight`. -/
theorem grid_props_type_check (r : DT.Rec) :
    (∀ f t, f ∈ FixedDataTable.TableProps → DT.lookupField r f.name = some t →
       DT.assignable t f.ty = false → (f.optional && t == DT.Ty.undef) = false →
       DT.satisfiesFields r FixedDataTable.TableProps = false)
    ∧ (DT.lookupField r "width" = some DT.Ty.str →
        DT.satisfiesFields r FixedDataTable.TableProps = false)
    ∧ (DT.lookupField r "width" = some DT.Ty.str →
        DT.satisfiesFields r FixedDataTable.ColumnProps = false)
    ∧ (DT.suppliedOk FixedDataTable.TableProps r = true →
        DT.requiredSupplied FixedDataTable.TableProps r = true →
        DT.satisfiesFields r FixedDataTable.TableProps = true)
    ∧ DT.requiredNames FixedDataTable.TableProps
        = ["width", "rowsCount", "rowHeight", "headerHeight"] := by
  refine ⟨?_, ?_, ?_, fun h1 h2 => DT.satisfiesFields_of_supplied h1 h2, by decide⟩
  · intro f t hf hl ha hu
    exact DT.satisfiesFields_eq_false_of_mem hf
      (DT.fieldOk_eq_false_of_wrong hl ha hu)
  · intro h
    exact DT.satisfiesFields_eq_false_of_mem (f := ⟨"width", false, DT.Ty.num⟩)
      (by decide) (DT.fieldOk_eq_false_of_wrong h (by decide) (by decide))
  · intro h
    exact DT.satisfiesFields_eq_false_of_mem (f := ⟨"width", false, DT.Ty.num⟩)
      (by decide) (DT.fieldOk_eq_false_of_wrong h (by decide) (by decide))

/-- Spot check for C3: a record with a string `width` is rejected by
`TableProps`, and the minimal correctly typed record is accepted. -/
theorem grid_props_type_check_spot :
    DT.satisfiesFields [("width", DT.Ty.str)] FixedDataTable.TableProps = false
    ∧ DT.satisfiesFields FixedDataTable.minimalTableProps
        FixedDataTable.TableProps = true :=
  ⟨(grid_props_type_check [("width", DT.Ty.str)]).2.1 rfl,
   (grid_props_type_check FixedDataTable.minimalTableProps).2.2.2.1
     (by decide) (by decide)⟩

/-- Claim C5: `TableProps.onHorizontalScroll` and
`TableProps.onVerticalScroll` are optional functions from one numeric
scroll position to `boolean`, `ColumnProps.allowCellsRecycling` is an
optional boolean flag, a supplied flag of any type other than the
declared boolean is rejected, and a supplied scroll callback of any
other arity or return type is rejected. -/
theorem scroll_and_recycling_declarations (r : DT.Rec) :
    FixedDataTable.TableProps.find? (fun f => f.name == "onHorizontalScroll")
        = some ⟨"onHorizontalScroll", true,
            DT.Ty.fn (DT.TyList.cons DT.Ty.num DT.TyList.nil) DT.Ty.bool⟩
    ∧ FixedDataTable.TableProps.find? (fun f => f.name == "onVerticalScroll")
        = some ⟨"onVerticalScroll", true,
            DT.Ty.fn (DT.TyList.cons DT.Ty.num DT.TyList.nil) DT.Ty.bool⟩
    ∧ FixedDataTable.ColumnProps.find? (fun f => f.name == "allowCellsRecycling")
        = some ⟨"allowCellsRecycling", true, DT.Ty.bool⟩
    ∧ (∀ t, DT.lookupField r "allowCellsRecycling" = some t →
        t ≠ DT.Ty.bool → t ≠ DT.Ty.undef → t ≠ DT.Ty.any →
        DT.satisfiesFields r FixedDataTable.ColumnProps = false)
    ∧ (∀ ps ret, DT.lookupField r "onHorizontalScroll" = some (DT.Ty.fn ps ret) →
        (ps ≠ DT.TyList.cons DT.Ty.num DT.TyList.nil ∨ ret ≠ DT.Ty.bool) →
        DT.satisfiesFields r FixedDataTable.TableProps = false)
    ∧ (∀ ps ret, DT.lookupField r "onVerticalScroll" = some (DT.Ty.fn ps ret) →
        (ps ≠ DT.TyList.cons DT.Ty.num DT.TyList.nil ∨ ret ≠ DT.Ty.bool) →
        DT.satisfiesFields r FixedDataTable.TableProps = false) := by
  refine ⟨by decide, by decide, by decide, ?_, ?_, ?_⟩
  · intro t h hb hu ha
    refine DT.satisfiesFields_eq_false_of_mem
      (f := ⟨"allowCellsRecycling", true, DT.Ty.bool⟩) (by decide) ?_
    refine DT.fieldOk_eq_false_of_wrong h
      (DT.assignable_eq_false hb ha (fun hh => nomatch hh)
        (fun a b hh => nomatch hh)) ?_
    show (true && (t == DT.Ty.undef)) = false
    rw [Bool.true_and]
    exact beq_eq_false_iff_ne.mpr hu
  · intro ps ret h hor
    have hne : DT.Ty.fn ps ret
        ≠ DT.Ty.fn (DT.TyList.cons DT.Ty.num DT.TyList.nil) DT.Ty.bool := by
      intro hh
      injection hh with hh1 hh2
      rcases hor with hx | hx
      · exact hx hh1
      · exact hx hh2
    refine DT.satisfiesFields_eq_false_of_mem
      (f := ⟨"onHorizontalScroll", true,
        DT.Ty.fn (DT.TyList.cons DT.Ty.num DT.TyList.nil) DT.Ty.bool⟩)
      (by decide) ?_
    refine DT.fieldOk_eq_false_of_wrong h
      (DT.assignable_eq_false hne (fun hh => nomatch hh) (fun hh => nomatch hh)
        (fun a b hh => nomatch hh)) ?_
    show (true && (DT.Ty.fn ps ret == DT.Ty.undef)) = false
    rw [Bool.true_and]
    exact beq_eq_false_iff_ne.mpr (fun hh => nomatch hh)
  · intro ps ret h hor
    have hne : DT.Ty.fn ps ret
        ≠ DT.Ty.fn (DT.TyList.cons DT.Ty.num DT.TyList.nil) DT.Ty.bool := by
      intro hh
      injection hh with hh1 hh2
      rcases hor with hx | hx
      · exact hx hh1
      · exact hx hh2
    refine DT.satisfiesFields_eq_false_of_mem
      (f := ⟨"onVerticalScroll", true,
        DT.Ty.fn (DT.TyList.cons DT.Ty.num DT.TyList.nil) DT.Ty.bool⟩)
      (by decide) ?_
    refine DT.fieldOk_eq_false_of_wrong h
      (DT.assignable_eq_false hne (fun hh => nomatch hh) (fun hh => nomatch hh)
        (fun a b hh => nomatch hh)) ?_
    show (true && (DT.Ty.fn ps ret == DT.Ty.undef)) = false
    rw [Bool.true_and]
    exact beq_eq_false_iff_ne.mpr (fun hh => nomatch hh)

/-- Spot check for C5: a numeric `allowCellsRecycling` is rejected by
`ColumnProps`, and a nullary `onHorizontalScroll` callback is rejected
by `TableProps`. -/
theorem scroll_and_recycling_declarations_spot :
    DT.satisfiesFields [("allowCellsRecycling", DT.Ty.num)]
        FixedDataTable.ColumnProps = false
    ∧ DT.satisfiesFields
        [("onHorizontalScroll", DT.Ty.fn DT.TyList.nil DT.Ty.bool)]
        FixedDataTable.TableProps = false :=
  ⟨(scroll_and_recycling_declarations [("allowCellsRecycling", DT.Ty.num)]).2.2.2.1
      DT.Ty.num rfl (by decide) (by decide) (by decide),
   (scroll_and_recycling_declarations
        [("onHorizontalScroll", DT.Ty.fn DT.TyList.nil DT.Ty.bool)]).2.2.2.2.1
      DT.TyList.nil DT.Ty.bool rfl (Or.inl (by decide))⟩

/-- Claim C9: the plugin cells' end-of-gesture callbacks are mandatory —
a record lacking `onColumnResizeEnd` fails `ResizeCellProps` and one
lacking `onColumnReorderEnd` fails `ReorderCellProps` — while the
table-level `onColumnResizeEndCallback` and `onColumnReorderEndCallback`
and every other function-typed `TableProps` field are optional. -/
theorem plugin_end_callbacks_required (r : DT.Rec) :
    (FixedDataTable.Plugins.ResizeCellProps.find?
        (fun f => f.name == "onColumnResizeEnd")).map DT.Field.optional
        = some false
    ∧ (FixedDataTable.Plugins.ReorderCellProps.find?
        (fun f => f.name == "onColumnReorderEnd")).map DT.Field.optional
        = some false
    ∧ (DT.lookupField r "onColumnResizeEnd" = none →
        DT.satisfiesFields r FixedDataTable.Plugins.ResizeCellProps = false)
    ∧ (DT.lookupField r "onColumnReorderEnd" = none →
        DT.satisfiesFields r FixedDataTable.Plugins.ReorderCellProps = false)
    ∧ (FixedDataTable.TableProps.filter (fun f => DT.isFn f.ty)).all
        (fun f => f.optional) = true
    ∧ (FixedDataTable.TableProps.find?
        (fun f => f.name == "onColumnResizeEndCallback")).map DT.Field.optional
        = some true
    ∧ (FixedDataTable.TableProps.find?
        (fun f => f.name == "onColumnReorderEndCallback")).map DT.Field.optional
        = some true := by
  refine ⟨by decide, by decide, ?_, ?_, by decide, by decide, by decide⟩
  · intro h
    exact DT.satisfiesFields_eq_false_of_mem
      (f := ⟨"onColumnResizeEnd", false,
        DT.Ty.fn (DT.TyList.cons DT.Ty.num (DT.TyList.cons DT.Ty.str DT.TyList.nil))
          DT.Ty.void⟩)
      (by decide) (DT.fieldOk_eq_false_of_missing rfl h)
  · intro h
    exact DT.satisfiesFields_eq_false_of_mem
      (f := ⟨"onColumnReorderEnd", false,
        DT.Ty.fn (DT.TyList.cons (DT.Ty.named "ReorderCellEndEvent") DT.TyList.nil)
          DT.Ty.void⟩)
      (by decide) (DT.fieldOk_eq_false_of_missing rfl h)

/-- Spot check for C9: the empty record conforms to neither plugin cell
props interface. -/
theorem plugin_end_callbacks_required_spot :
    DT.satisfiesFields [] FixedDataTable.Plugins.ResizeCellProps = false
    ∧ DT.satisfiesFields [] FixedDataTable.Plugins.ReorderCellProps = false :=
  ⟨(plugin_end_callbacks_required []).2.2.1 rfl,
   (plugin_end_callbacks_required []).2.2.2.1 rfl⟩
